import Mathlib

/-!
Verification development for the IntelliCare crisis-support call pipeline.

Shallow embedding of the Python sources under `calls/`:
* `risk_assessment.py` — keyword fallback classifier, risk priorities,
  the call-level cumulative risk escalator and the high-risk escalation hook;
* `sarv.py` — token counting, the context-window trimming loop, `query_llm`;
* `ai_service.py` / `models.py` — recording-chunk numbering under the
  `unique_together ('call', 'chunk_number')` constraint, and the
  recording-complete segment pipeline with its fallback-audio behaviour.

External collaborators (the SetFit classifier, the Sarvam translation /
speech / chat services, the vector memory store, the filesystem) are
modelled as explicit function or flag parameters; everything else follows
the Python control flow statement by statement.
-/

namespace IntelliCare

/-! ## Risk assessment (`calls/risk_assessment.py`) -/

/-- Result dictionary of `RiskAssessmentService.assess_risk` /
`_fallback_risk_assessment` (the keys every branch populates). -/
structure RiskResult where
  success : Bool
  risk_category : String
  risk_level : String
  description : String
deriving Repr, DecidableEq

/-- The `risk_measure` dictionary mapping classifier categories to levels. -/
def risk_measure (category : String) : Option String :=
  if category = "Presence of a loved one" then some "low_risk"
  else if category = "Previous attempt" then some "high_risk"
  else if category = "Ability to take care of oneself" then some "medium_risk"
  else if category = "Ability to hope for change" then some "low_risk"
  else if category = "Other" then some "no_risk"
  else if category = "Suicidal planning" then some "alert"
  else if category = "Ability to control oneself" then some "low_risk"
  else if category = "Consumption" then some "medium_risk"
  else none

/-- The `descr_mapper` dictionary (category descriptions); text abbreviated
to the identifying first words since only the mapped keys matter here. -/
def descr_mapper (category : String) : Option String :=
  if category = "Presence of a loved one" then some "This class reflects emotional pain rooted in loneliness"
  else if category = "Previous attempt" then some "Refers to prior suicide attempts"
  else if category = "Ability to take care of oneself" then some "Shows functional decline"
  else if category = "Ability to hope for change" then some "Reflects a deep sense of hopelessness and despair"
  else if category = "Other" then some "Mentions non-depressive or positive aspects of life"
  else if category = "Suicidal planning" then some "Involves explicit thoughts, intentions, or plans about suicide"
  else if category = "Ability to control oneself" then some "Captures the struggle with impulse control"
  else if category = "Consumption" then some "Describes maladaptive coping behaviors"
  else none

/-- `RiskAssessmentService.get_risk_priority`: numeric priority for a risk
level, unknown strings defaulting to 0 (`priority_map.get(risk_level, 0)`). -/
def get_risk_priority (risk_level : String) : Nat :=
  if risk_level = "no_risk" then 0
  else if risk_level = "low_risk" then 1
  else if risk_level = "medium_risk" then 2
  else if risk_level = "high_risk" then 3
  else if risk_level = "alert" then 4
  else 0

/-- Python `needle in haystack` prefix test on character lists. -/
def headMatches : List Char → List Char → Bool
  | [], _ => true
  | _ :: _, [] => false
  | a :: as, b :: bs => a == b && headMatches as bs

/-- Python substring membership `needle in haystack` on character lists. -/
def occursIn (needle : List Char) : List Char → Bool
  | [] => headMatches needle []
  | b :: bs => headMatches needle (b :: bs) || occursIn needle bs

/-- Python `keyword in text` for strings. -/
def strOccursIn (needle haystack : String) : Bool :=
  occursIn needle.data haystack.data

/-- Python `text.strip()`: drop leading and trailing whitespace. -/
def pyStrip (s : String) : String :=
  String.mk (((s.data.dropWhile Char.isWhitespace).reverse.dropWhile
    Char.isWhitespace).reverse)

/-- Python `text.lower()` (ASCII case folding). -/
def pyLower (s : String) : String :=
  String.mk (s.data.map Char.toLower)

def high_risk_keywords : List String :=
  ["suicide", "kill myself", "end my life", "want to die",
   "planning to die", "suicide plan", "kill me", "ending it all"]

def alert_keywords : List String :=
  ["suicide plan", "going to kill", "tonight i will",
   "method to die", "suicide method", "plan to end"]

def medium_risk_keywords : List String :=
  ["can\x27t take care", "lost interest", "drinking to cope",
   "substance abuse", "can\x27t function", "neglecting"]

def low_risk_keywords : List String :=
  ["lonely", "need someone", "feeling alone",
   "can\x27t control", "out of control", "hopeless"]

/-- `RiskAssessmentService._fallback_risk_assessment`: ordered keyword scan
over the lowercased text, most severe tier first, defaulting to
`Other`/`no_risk`. -/
def fallback_risk_assessment (text : String) : RiskResult :=
  if pyStrip text = "" then
    ⟨true, "Other", "no_risk", "No text to analyze (fallback)"⟩
  else
    if alert_keywords.any (fun k => strOccursIn k (pyLower text)) then
      ⟨true, "Suicidal planning", "alert", "Alert level keywords detected (fallback assessment)"⟩
    else if high_risk_keywords.any (fun k => strOccursIn k (pyLower text)) then
      ⟨true, "Previous attempt", "high_risk", "High risk keywords detected (fallback assessment)"⟩
    else if medium_risk_keywords.any (fun k => strOccursIn k (pyLower text)) then
      ⟨true, "Ability to take care of oneself", "medium_risk", "Medium risk keywords detected (fallback assessment)"⟩
    else if low_risk_keywords.any (fun k => strOccursIn k (pyLower text)) then
      ⟨true, "Presence of a loved one", "low_risk", "Low risk keywords detected (fallback assessment)"⟩
    else
      ⟨true, "Other", "no_risk", "No risk keywords detected (fallback assessment)"⟩

/-- `RiskAssessmentService.assess_risk`. The SetFit model is an external
collaborator: `model = none` is the unavailable case (load failure or lazy
load incomplete); when available it maps translated text to an optional
prediction, `none` standing for a raised exception, which the surrounding
`try`/`except` routes to the fallback. `translate` is `translate_text`,
which already swallows its own failures and returns the original text. -/
def assess_risk (model : Option (String → Option String))
    (translate : String → String) (text : String) : RiskResult :=
  match model with
  | none => fallback_risk_assessment text
  | some predict =>
    if pyStrip text = "" then
      ⟨true, "Other", "no_risk", "No text to analyze"⟩
    else
      let translated := translate text
      match predict translated with
      | none => fallback_risk_assessment text
      | some prediction =>
        ⟨true, prediction, (risk_measure prediction).getD "no_risk",
          (descr_mapper prediction).getD "Unknown category"⟩

/-! ## Cumulative risk escalator (`calls/risk_assessment.py`, call level)

`update_call_highest_risk` and `handle_high_risk_call` read and write the
call's `highest_risk_level` / `highest_risk_category` attributes and the
per-chunk `risk_processed` / `risk_level` / `risk_category` attributes.
`models.py` declares NONE of these as model fields: against the declared
schema the function's chunk filter raises `FieldError` on every
invocation and its blanket `except` turns the whole run into a no-op
(see `update_call_highest_risk_db` below for the executable behaviour).
The definitions in this section therefore embed the module's *written*
scan-and-store logic over the attributes its code presupposes — the
policy the module attempts, used to state what the program was meant to
do and for the C7 scenario — not what a run against the declared schema
can achieve. The call starts with no escalation contacts and at the
bottom level `no_risk` (priority 0, the value `get_risk_priority`
assigns to any unset level). -/

/-- The per-chunk risk attributes the risk-assessment module presupposes
(`risk_processed` / `risk_level` / `risk_category`, written by
`process_chunk_risk_assessment`). `models.py` declares no such fields on
`RecordingChunk`, so these values are not persistable in the real
program. -/
structure ChunkRisk where
  risk_processed : Bool
  risk_level : Option String
  risk_category : Option String
deriving Repr, DecidableEq

/-- An `EmergencyContact` row as created by `handle_high_risk_call`. -/
structure EmergencyContactRec where
  contact_type : String
  contact_info : String
  notes : String
  contacted : Bool
deriving Repr, DecidableEq

/-- The call-level state the cumulative risk escalator presupposes.
`models.py`'s `Call` declares no `highest_risk_level` /
`highest_risk_category` columns; the module's reads and writes of them
target attributes that cannot survive a save/reload. -/
structure CallState where
  highest_risk_level : String
  highest_risk_category : Option String
  chunks : List ChunkRisk
  emergency_contacts : List EmergencyContactRec
deriving Repr, DecidableEq

def initialCall : CallState := ⟨"no_risk", none, [], []⟩

/-- The `EmergencyContact` row `handle_high_risk_call` creates. -/
def crisisContact (call : CallState) : EmergencyContactRec :=
  ⟨"Crisis Team Alert",
    "Automated high-risk detection: " ++ call.highest_risk_level,
    "Risk category: " ++ call.highest_risk_category.getD "None",
    false⟩

/-- `handle_high_risk_call`: creates the automatic "Crisis Team Alert"
contact only when the call has no emergency contact yet
(`if not call.emergency_contacts.exists()`). -/
def handle_high_risk_call (call : CallState) : CallState :=
  if call.emergency_contacts.isEmpty then
    { call with emergency_contacts := call.emergency_contacts ++ [crisisContact call] }
  else call

/-- The chunk filter of `update_call_highest_risk` as written:
`risk_processed=True, risk_level__isnull=False`. Against the declared
schema this exact query raises `FieldError` (neither keyword resolves on
`RecordingChunk`); its selection logic is embedded here, guarded by the
keyword-resolution check in `update_call_highest_risk_db` below. -/
def processedChunks (call : CallState) : List ChunkRisk :=
  call.chunks.filter (fun c => c.risk_processed && c.risk_level.isSome)

def chunkPriority (c : ChunkRisk) : Nat :=
  get_risk_priority (c.risk_level.getD "")

/-- Accumulator of the highest-risk scan in `update_call_highest_risk`
(`highest_priority` / `highest_risk_level` / `highest_risk_category`). -/
structure HighestAcc where
  priority : Nat
  level : String
  category : Option String
deriving Repr, DecidableEq

/-- One step of the chunk loop in `update_call_highest_risk`: keep the
first chunk of strictly greater priority. -/
def scanStep (acc : HighestAcc) (c : ChunkRisk) : HighestAcc :=
  if chunkPriority c > acc.priority then
    ⟨chunkPriority c, c.risk_level.getD "", c.risk_category⟩
  else acc

/-- The chunk loop of `update_call_highest_risk`, starting from
`(0, "no_risk", None)`. -/
def findHighest (chunks : List ChunkRisk) : HighestAcc :=
  chunks.foldl scanStep ⟨0, "no_risk", none⟩

/-- The record assignment both branches of `update_call_highest_risk`
perform when the recomputed level differs from the stored one. -/
def updateStored (call : CallState) : CallState :=
  { call with
      highest_risk_level := (findHighest (processedChunks call)).level,
      highest_risk_category := (findHighest (processedChunks call)).category }

/-- The scan-and-store logic of `update_call_highest_risk` as written:
recompute the highest level over all risk-processed chunks; store it when
it differs from the current value and invoke `handle_high_risk_call` when
the stored value lands in `high_risk`/`alert`. This body runs only if the
chunk filter resolves; `update_call_highest_risk_db` below is the
invocation as the interpreter executes it against the declared schema. -/
def update_call_highest_risk (call : CallState) : CallState :=
  if (processedChunks call).isEmpty then call
  else if call.highest_risk_level ≠ (findHighest (processedChunks call)).level then
    if (findHighest (processedChunks call)).level = "high_risk" ∨
        (findHighest (processedChunks call)).level = "alert" then
      handle_high_risk_call (updateStored call)
    else updateStored call
  else call

/-- One classified chunk followed by the escalator pass, the flow
`process_chunk_risk_assessment` spells out after a successful assessment.
That function has no caller anywhere in the repository, and its attribute
writes are not declared fields; this is the intended per-chunk step, used
to express the module's policy and the C7 scenario. -/
def classifyChunk (call : CallState) (level category : String) : CallState :=
  update_call_highest_risk
    { call with chunks := call.chunks ++ [⟨true, some level, some category⟩] }

/-- A whole call processed from scratch: one `(level, category)` assessment
per chunk, in order. -/
def processTrace (assessments : List (String × String)) : CallState :=
  assessments.foldl (fun s a => classifyChunk s a.1 a.2) initialCall

/-- Maximum risk priority over a chunk list (specification-side measure). -/
def maxChunkPriority (chunks : List ChunkRisk) : Nat :=
  chunks.foldl (fun m c => max m (chunkPriority c)) 0

def callMaxPriority (call : CallState) : Nat :=
  maxChunkPriority (processedChunks call)

/-! ### Lemmas on the escalator -/

theorem priority_ge_three_iff (l : String) :
    3 ≤ get_risk_priority l ↔ l = "high_risk" ∨ l = "alert" := by
  unfold get_risk_priority
  split_ifs with h1 h2 h3 h4 h5
  · subst h1; decide
  · subst h2; decide
  · subst h3; decide
  · subst h4; simp
  · subst h5; simp
  · simp [h4, h5]

theorem scanStep_priority (acc : HighestAcc) (c : ChunkRisk) :
    (scanStep acc c).priority = max acc.priority (chunkPriority c) := by
  unfold scanStep
  split_ifs with h <;> simp <;> omega

theorem foldl_scan_priority (chunks : List ChunkRisk) :
    ∀ acc : HighestAcc, (chunks.foldl scanStep acc).priority =
      chunks.foldl (fun m c => max m (chunkPriority c)) acc.priority := by
  induction chunks with
  | nil => intro acc; rfl
  | cons c cs ih =>
    intro acc
    simp only [List.foldl_cons, ih, scanStep_priority]

theorem foldl_scan_level (chunks : List ChunkRisk) :
    ∀ acc : HighestAcc, get_risk_priority acc.level = acc.priority →
      get_risk_priority (chunks.foldl scanStep acc).level =
        (chunks.foldl scanStep acc).priority := by
  induction chunks with
  | nil => intro acc h; exact h
  | cons c cs ih =>
    intro acc h
    apply ih
    unfold scanStep
    split_ifs with hgt
    · rfl
    · exact h

theorem findHighest_priority (chunks : List ChunkRisk) :
    (findHighest chunks).priority = maxChunkPriority chunks :=
  foldl_scan_priority chunks _

theorem findHighest_level (chunks : List ChunkRisk) :
    get_risk_priority (findHighest chunks).level = (findHighest chunks).priority :=
  foldl_scan_level chunks _ (by decide)

theorem maxChunkPriority_append (l : List ChunkRisk) (c : ChunkRisk) :
    maxChunkPriority (l ++ [c]) = max (maxChunkPriority l) (chunkPriority c) := by
  unfold maxChunkPriority
  rw [List.foldl_append]
  rfl

theorem processedChunks_append (s : CallState) (level category : String) :
    processedChunks { s with chunks := s.chunks ++ [⟨true, some level, some category⟩] } =
      processedChunks s ++ [⟨true, some level, some category⟩] := by
  unfold processedChunks
  simp [List.filter_append]

theorem handle_level (c : CallState) :
    (handle_high_risk_call c).highest_risk_level = c.highest_risk_level := by
  unfold handle_high_risk_call
  split_ifs <;> rfl

theorem handle_chunks (c : CallState) :
    (handle_high_risk_call c).chunks = c.chunks := by
  unfold handle_high_risk_call
  split_ifs <;> rfl

theorem handle_contacts (c : CallState) :
    (handle_high_risk_call c).emergency_contacts =
      if c.emergency_contacts.isEmpty then
        c.emergency_contacts ++ [crisisContact c]
      else c.emergency_contacts := by
  unfold handle_high_risk_call
  split_ifs <;> rfl

theorem callMaxPriority_handle (c : CallState) :
    callMaxPriority (handle_high_risk_call c) = callMaxPriority c := by
  unfold callMaxPriority processedChunks
  rw [handle_chunks]

theorem updateStored_level (c : CallState) :
    (updateStored c).highest_risk_level = (findHighest (processedChunks c)).level := rfl

theorem updateStored_contacts (c : CallState) :
    (updateStored c).emergency_contacts = c.emergency_contacts := rfl

theorem callMaxPriority_updateStored (c : CallState) :
    callMaxPriority (updateStored c) = callMaxPriority c := rfl

theorem processedChunks_updateStored (c : CallState) :
    processedChunks (updateStored c) = processedChunks c := rfl

/-- The invariant the written scan-and-store policy would maintain had
its fields existed: the stored highest risk level carries exactly the
maximum priority over all risk-processed chunks, and the automatic
"Crisis Team Alert" contact exists exactly when that level has reached
`high_risk`/`alert` priority. Proved below over the intended-policy model
as evidence that the spec's monotonic-highest rule is what the module's
code attempts; the run against the declared schema achieves none of it
(`highest_risk_never_stored`, `crisis_alert_never_created`). -/
def RiskInv (s : CallState) : Prop :=
  get_risk_priority s.highest_risk_level = callMaxPriority s ∧
  s.emergency_contacts.length =
    (if 3 ≤ get_risk_priority s.highest_risk_level then 1 else 0) ∧
  s.emergency_contacts.all (fun c => c.contact_type == "Crisis Team Alert") = true

theorem riskInv_initial : RiskInv initialCall := by
  refine ⟨by decide, by decide, by decide⟩

theorem classifyChunk_inv (s : CallState) (level category : String)
    (hInv : RiskInv s) :
    RiskInv (classifyChunk s level category) ∧
    get_risk_priority s.highest_risk_level ≤
      get_risk_priority (classifyChunk s level category).highest_risk_level := by
  obtain ⟨hmax, hlen, htype⟩ := hInv
  have hpc := processedChunks_append s level category
  have hne : (processedChunks
      { s with chunks := s.chunks ++ [⟨true, some level, some category⟩] }).isEmpty = false := by
    rw [hpc]; simp
  set c0 : ChunkRisk := ⟨true, some level, some category⟩ with hc0
  set s1 : CallState := { s with chunks := s.chunks ++ [c0] } with hs1
  have hscont : s1.emergency_contacts = s.emergency_contacts := rfl
  have hslevel : s1.highest_risk_level = s.highest_risk_level := rfl
  have hfp : (findHighest (processedChunks s1)).priority =
      max (callMaxPriority s) (chunkPriority c0) := by
    rw [findHighest_priority, hpc, maxChunkPriority_append]; rfl
  have hfl : get_risk_priority (findHighest (processedChunks s1)).level =
      (findHighest (processedChunks s1)).priority := findHighest_level _
  have hmono : get_risk_priority s.highest_risk_level ≤
      get_risk_priority (findHighest (processedChunks s1)).level := by
    rw [hfl, hfp, hmax]; exact le_max_left _ _
  have hmaxeq : get_risk_priority (findHighest (processedChunks s1)).level =
      callMaxPriority s1 := by
    rw [hfl, hfp]
    unfold callMaxPriority
    rw [hpc, maxChunkPriority_append]
  show RiskInv (update_call_highest_risk s1) ∧
    get_risk_priority s.highest_risk_level ≤
      get_risk_priority (update_call_highest_risk s1).highest_risk_level
  unfold update_call_highest_risk
  rw [hne]
  simp only [Bool.false_eq_true, if_false]
  split_ifs with hneq hhigh
  · -- level changed and the new level is high_risk / alert
    have hge3 : 3 ≤ get_risk_priority (findHighest (processedChunks s1)).level :=
      (priority_ge_three_iff _).2 hhigh
    refine ⟨⟨?_, ?_, ?_⟩, ?_⟩
    · rw [handle_level, updateStored_level, callMaxPriority_handle,
        callMaxPriority_updateStored]
      exact hmaxeq
    · rw [handle_level, updateStored_level, handle_contacts, updateStored_contacts,
        hscont, if_pos hge3]
      by_cases hemp : s.emergency_contacts.isEmpty
      · rw [if_pos hemp, List.length_append]
        have h0 : s.emergency_contacts.length = 0 := by
          simpa [List.isEmpty_iff_length_eq_zero] using hemp
        rw [h0]
        simp
      · rw [if_neg hemp]
        have hne0 : s.emergency_contacts.length ≠ 0 := by
          intro h0
          exact hemp (by simpa [List.isEmpty_iff_length_eq_zero] using h0)
        rw [hlen] at hne0 ⊢
        split_ifs at hne0 ⊢ with h3
        · rfl
        · exact absurd rfl hne0
    · rw [handle_contacts, updateStored_contacts, hscont]
      by_cases hemp : s.emergency_contacts.isEmpty
      · rw [if_pos hemp, List.all_append, htype]
        simp [crisisContact]
      · rw [if_neg hemp]; exact htype
    · rw [handle_level, updateStored_level]; exact hmono
  · -- level changed but below the escalation threshold
    have hlt3 : ¬ 3 ≤ get_risk_priority (findHighest (processedChunks s1)).level := by
      intro h; exact hhigh ((priority_ge_three_iff _).1 h)
    refine ⟨⟨?_, ?_, ?_⟩, ?_⟩
    · rw [updateStored_level, callMaxPriority_updateStored]
      exact hmaxeq
    · rw [updateStored_level, updateStored_contacts, hscont]
      have hold3 : ¬ 3 ≤ get_risk_priority s.highest_risk_level := by
        intro h; exact hlt3 (le_trans h hmono)
      rw [hlen, if_neg hold3, if_neg hlt3]
    · rw [updateStored_contacts, hscont]; exact htype
    · rw [updateStored_level]; exact hmono
  · -- stored level already equals the recomputed one
    push_neg at hneq
    refine ⟨⟨?_, ?_, ?_⟩, ?_⟩
    · rw [hslevel] at hneq ⊢
      rw [hneq]
      exact hmaxeq
    · rw [hscont, hslevel]; exact hlen
    · rw [hscont]; exact htype
    · rw [hslevel]

theorem processTrace_inv (trace : List (String × String)) :
    RiskInv (processTrace trace) := by
  unfold processTrace
  suffices h : ∀ s, RiskInv s →
      RiskInv (trace.foldl (fun s a => classifyChunk s a.1 a.2) s) from
    h _ riskInv_initial
  induction trace with
  | nil => intro s hs; exact hs
  | cons a as ih =>
    intro s hs
    exact ih _ (classifyChunk_inv s a.1 a.2 hs).1

/-! ### The escalator against the declared schema (`calls/models.py`)

What `update_call_highest_risk` actually does when invoked: Django first
resolves every keyword of
`RecordingChunk.objects.filter(call=call, risk_processed=True,
risk_level__isnull=False)` against the fields `models.py` declares on
`RecordingChunk`; an unresolved keyword raises
`FieldError: Cannot resolve keyword ...` (a `__isnull` lookup resolves by
its base field name). The function's trailing `except Exception` logs and
returns, so the run ends before the scan, before any store, and before
`handle_high_risk_call`. -/

/-- The fields `models.py` declares on `RecordingChunk` (lines 185-216). -/
def recordingChunkFields : List String :=
  ["id", "call", "recording_url", "local_recording_path", "local_recording_url",
   "chunk_number", "duration_seconds", "processed", "response_audio_url",
   "response_played", "recorded_at", "processed_at"]

/-- The fields `models.py` declares on `Call` (lines 6-43). -/
def callFields : List String :=
  ["id", "phone_number", "twilio_call_sid", "status", "start_time", "end_time",
   "duration", "audio_file_url", "local_recording_path", "local_recording_url",
   "transcription", "conversation_state", "caller_city", "caller_state",
   "caller_country", "created_at", "updated_at"]

/-- The keywords the chunk filter of `update_call_highest_risk` must
resolve on `RecordingChunk` (`risk_level__isnull` resolves by its base
field `risk_level`). -/
def updateFilterKeywords : List String := ["call", "risk_processed", "risk_level"]

/-- One `update_call_highest_risk(call_id)` invocation as the interpreter
executes it against the declared schema: the scan-and-store body runs only
if every filter keyword resolves into a `RecordingChunk` field; otherwise
the `FieldError` is swallowed by the function's `except Exception` and the
state is returned untouched. -/
def update_call_highest_risk_db (call : CallState) : CallState :=
  if updateFilterKeywords.all (fun k => recordingChunkFields.contains k) then
    update_call_highest_risk call
  else call

/-- C1 (code bug): the escalator cannot run against the declared schema.
`risk_processed` and `risk_level` are not `RecordingChunk` fields and
`highest_risk_level` is not a `Call` column, so every real invocation of
`update_call_highest_risk` aborts inside its own `except` and changes
nothing — there is no stored highest risk level for the claimed monotone
maximum to hold of. -/
theorem highest_risk_never_stored :
    recordingChunkFields.contains "risk_processed" = false ∧
    recordingChunkFields.contains "risk_level" = false ∧
    callFields.contains "highest_risk_level" = false ∧
    ∀ call : CallState, update_call_highest_risk_db call = call := by
  refine ⟨by decide, by decide, by decide, ?_⟩
  intro call
  unfold update_call_highest_risk_db
  rw [if_neg (by decide)]

/-- An emergency contact created by hand (admin console / REST API), of a
different type than the automatic "Crisis Team Alert". -/
def familyContact : EmergencyContactRec :=
  ⟨"Family Contact", "+911234567890", "Added manually by an operator", true⟩

/-- C2 (code bug): no automatic escalation attempt is ever created.
`handle_high_risk_call` is reachable only through the success path of
`update_call_highest_risk`, which against the declared schema is a no-op
on every input — in particular the emergency contacts never change, so
the "Crisis Team Alert" record is not created at any crossing. And even
on the written path, the guard `not call.emergency_contacts.exists()`
suppresses creation when ANY contact exists, not one of the same trigger
type: a call at `alert` holding only a manual "Family Contact" gets no
"Crisis Team Alert" either. -/
theorem crisis_alert_never_created :
    (∀ call : CallState,
      (update_call_highest_risk_db call).emergency_contacts =
        call.emergency_contacts) ∧
    (handle_high_risk_call
        ⟨"alert", some "Suicidal planning", [⟨true, some "alert", some "Suicidal planning"⟩],
          [familyContact]⟩).emergency_contacts = [familyContact] := by
  constructor
  · intro call
    unfold update_call_highest_risk_db
    rw [if_neg (by decide)]
  · decide

/-! ## Conversation engine (`calls/sarv.py`) -/

/-- A role-tagged conversation message. -/
structure Message where
  role : String
  content : String
deriving Repr, DecidableEq

/-- `TARGET_CONTEXT_LIMIT = 125000` (7k buffer under `MAX_TOKENS`). -/
def TARGET_CONTEXT_LIMIT : Nat := 125000

/-- `count_tokens` in its deterministic path (transformers tokenizer
unavailable): approximately 4 characters per token, `len(text) // 4`. -/
def count_tokens (text : String) : Nat := text.length / 4

/-- `count_message_tokens`: sum over the messages' content. -/
def count_message_tokens (messages : List Message) : Nat :=
  (messages.map (fun m => count_tokens m.content)).sum

/-- The context-window trimming loop of `query_llm`:
`while count_message_tokens(full_context) > TARGET_CONTEXT_LIMIT:` pop the
two oldest history messages while at least two remain, else break; the
system message is outside the popped list and never evicted. -/
def trimLoop (sysMsg : Message) : List Message → List Message
  | a :: b :: rest =>
    if count_message_tokens (sysMsg :: a :: b :: rest) > TARGET_CONTEXT_LIMIT then
      trimLoop sysMsg rest
    else a :: b :: rest
  | conversation => conversation

/-- Result of `query_llm`: the reply, the (mutated) conversation list, and
whether the long-term memory write was triggered this turn. -/
structure LLMResult where
  reply : String
  conversation : List Message
  memoryWritten : Bool
deriving Repr, DecidableEq

/-- `query_llm`. External collaborators are parameters: `sysContent` is
`system_prompt.format(memories_str=...)` (it varies with the retrieved
memories), `llm` is `client.chat.completions` with `none` standing for a
raised exception, `memAvailable` is whether the memory store initialized.
The new user message is appended first; the trimming loop then mutates the
conversation in place; on an LLM exception the fixed apology string is
returned with the conversation as mutated so far (no rollback, no
assistant message); on success the assistant reply is appended and the
memory write fires when `len(full_context) % 2 == 0`. -/
def query_llm (sysContent : String) (llm : List Message → Option String)
    (memAvailable : Bool) (conversation : List Message) (userInput : String) :
    LLMResult :=
  let conv1 := conversation ++ [⟨"user", userInput⟩]
  let sysMsg : Message := ⟨"system", sysContent⟩
  let conv2 := trimLoop sysMsg conv1
  let fullContext := sysMsg :: conv2
  match llm fullContext with
  | none => ⟨"I\x27m here to help. Please try again.", conv2, false⟩
  | some reply =>
    ⟨reply, conv2 ++ [⟨"assistant", reply⟩],
      memAvailable && fullContext.length % 2 == 0⟩

/-! ### Lemmas on the trimming loop -/

theorem trimLoop_drops_pairs (sysMsg : Message) (conversation : List Message) :
    ∃ j, 2 * j ≤ conversation.length ∧
      trimLoop sysMsg conversation = conversation.drop (2 * j) := by
  induction conversation using trimLoop.induct sysMsg with
  | case1 a b rest hgt ih =>
    obtain ⟨j, hj, hdrop⟩ := ih
    refine ⟨j + 1, ?_, ?_⟩
    · simp only [List.length_cons]
      omega
    · rw [trimLoop, if_pos hgt, hdrop]
      have : 2 * (j + 1) = 2 * j + 2 := by omega
      rw [this]
      rfl
  | case2 a b rest hle =>
    exact ⟨0, by omega, by rw [trimLoop, if_neg hle]; rfl⟩
  | case3 conversation hnot =>
    refine ⟨0, by omega, ?_⟩
    match conversation, hnot with
    | [], _ => rfl
    | [a], _ => rfl
    | a :: b :: rest, h => exact absurd rfl (h a b rest)

theorem trimLoop_budget (sysMsg : Message) (conversation : List Message) :
    count_message_tokens (sysMsg :: trimLoop sysMsg conversation) ≤ TARGET_CONTEXT_LIMIT ∨
      (trimLoop sysMsg conversation).length < 2 := by
  induction conversation using trimLoop.induct sysMsg with
  | case1 a b rest hgt ih =>
    rw [trimLoop, if_pos hgt]
    exact ih
  | case2 a b rest hle =>
    rw [trimLoop, if_neg hle]
    left
    omega
  | case3 conversation hnot =>
    right
    match conversation, hnot with
    | [], _ => simp [trimLoop]
    | [a], _ => simp [trimLoop]
    | a :: b :: rest, h => exact absurd rfl (h a b rest)

theorem trimLoop_under_budget (sysMsg : Message) (conversation : List Message)
    (h : count_message_tokens (sysMsg :: conversation) ≤ TARGET_CONTEXT_LIMIT) :
    trimLoop sysMsg conversation = conversation := by
  match conversation with
  | [] => rfl
  | [a] => rfl
  | a :: b :: rest =>
    rw [trimLoop, if_neg (by omega)]

/-- C4 (amended): after the trimming loop, only whole oldest pairs have
been evicted (the system message survives by construction, and the history
is never cut below zero pairs), and the resulting full context is within
the token budget unless fewer than two history messages remained to evict
(in which case the oversized remainder — system message plus at most one
unpaired message — can still exceed the budget). -/
theorem context_trim_sound (sysMsg : Message) (conversation : List Message) :
    (∃ j, 2 * j ≤ conversation.length ∧
      trimLoop sysMsg conversation = conversation.drop (2 * j)) ∧
    (count_message_tokens (sysMsg :: trimLoop sysMsg conversation) ≤ TARGET_CONTEXT_LIMIT ∨
      (trimLoop sysMsg conversation).length < 2) :=
  ⟨trimLoop_drops_pairs sysMsg conversation, trimLoop_budget sysMsg conversation⟩

/-- An oversized single message: 500004 characters, hence 125001 > 125000
tokens under the 4-characters-per-token count. -/
def hugeMessage : Message := ⟨"user", String.mk (List.replicate 500004 'a')⟩

theorem replicate_tokens (n : Nat) :
    count_tokens (String.mk (List.replicate n 'a')) = n / 4 := by
  unfold count_tokens
  rw [show (String.mk (List.replicate n 'a')).length = (List.replicate n 'a').length from rfl,
    List.length_replicate]

theorem hugeMessage_tokens : count_tokens hugeMessage.content = 125001 := by
  rw [show hugeMessage.content = String.mk (List.replicate 500004 'a') from rfl,
    replicate_tokens]

/-- C4 counterexample: a history consisting of one oversized message
cannot be trimmed (no full pair remains), so the trimmed full context
still exceeds `TARGET_CONTEXT_LIMIT` — the claim that the token budget
always holds after trimming is false. -/
theorem context_trim_budget_counterexample :
    count_message_tokens
        (⟨"system", ""⟩ :: trimLoop ⟨"system", ""⟩ [hugeMessage]) >
      TARGET_CONTEXT_LIMIT := by
  have h1 : trimLoop ⟨"system", ""⟩ [hugeMessage] = [hugeMessage] := rfl
  rw [h1]
  unfold count_message_tokens
  rw [List.map_cons, List.map_cons, List.map_nil, List.sum_cons, List.sum_cons,
    List.sum_nil, hugeMessage_tokens]
  decide

/-- C8: the code intends (per its own comment, "update only alternatively
to prevent latency") to write long-term memory every other exchange, but
`len(full_context) % 2` is invariant across turns because each completed
exchange appends exactly two messages (and trimming removes two at a
time). Starting from an empty history, two consecutive successful
exchanges BOTH trigger the memory write. -/
theorem memory_write_fires_on_consecutive_turns :
    (query_llm "" (fun _ => some "ok") true [] "hello").memoryWritten = true ∧
    (query_llm "" (fun _ => some "ok") true
        (query_llm "" (fun _ => some "ok") true [] "hello").conversation
        "again").memoryWritten = true := by
  decide

/-- C10 (amended): when the dialogue completion raises, `query_llm`
returns the fixed apology reply and the conversation as already mutated —
user message appended, then trimmed — with no assistant message and no
memory write; whenever the untrimmed context is within the token budget
(so trimming is a no-op), the conversation therefore ends with the
unpaired trailing user turn. -/
theorem query_llm_error_no_rollback (sysContent : String)
    (llm : List Message → Option String) (memAvailable : Bool)
    (conversation : List Message) (userInput : String)
    (hfail : ∀ msgs, llm msgs = none) :
    (query_llm sysContent llm memAvailable conversation userInput).reply =
      "I\x27m here to help. Please try again." ∧
    (query_llm sysContent llm memAvailable conversation userInput).conversation =
      trimLoop ⟨"system", sysContent⟩ (conversation ++ [⟨"user", userInput⟩]) ∧
    (query_llm sysContent llm memAvailable conversation userInput).memoryWritten = false ∧
    (count_message_tokens
        (⟨"system", sysContent⟩ :: (conversation ++ [⟨"user", userInput⟩])) ≤
          TARGET_CONTEXT_LIMIT →
      (query_llm sysContent llm memAvailable conversation userInput).conversation =
        conversation ++ [⟨"user", userInput⟩]) := by
  have hchar : query_llm sysContent llm memAvailable conversation userInput =
      ⟨"I\x27m here to help. Please try again.",
        trimLoop ⟨"system", sysContent⟩ (conversation ++ [⟨"user", userInput⟩]),
        false⟩ := by
    simp only [query_llm]
    rw [hfail]
  refine ⟨by rw [hchar], by rw [hchar], by rw [hchar], ?_⟩
  intro hbudget
  rw [hchar]
  exact trimLoop_under_budget _ _ hbudget

theorem query_llm_error_no_rollback_witness :
    (∀ msgs, (fun _ : List Message => (none : Option String)) msgs = none) ∧
    ((query_llm "" (fun _ => none) false [] "hello").reply =
        "I\x27m here to help. Please try again." ∧
      (query_llm "" (fun _ => none) false [] "hello").conversation =
        trimLoop ⟨"system", ""⟩ ([] ++ [⟨"user", "hello"⟩]) ∧
      (query_llm "" (fun _ => none) false [] "hello").memoryWritten = false ∧
      (count_message_tokens (⟨"system", ""⟩ :: ([] ++ [⟨"user", "hello"⟩])) ≤
          TARGET_CONTEXT_LIMIT →
        (query_llm "" (fun _ => none) false [] "hello").conversation =
          [] ++ [⟨"user", "hello"⟩])) :=
  ⟨fun _ => rfl,
    query_llm_error_no_rollback "" (fun _ => none) false [] "hello" (fun _ => rfl)⟩

/-- C10 counterexample: with a huge prior unpaired message, the trimming
loop evicts the new user message itself before the dialogue call fails, so
the returned conversation is empty — it does NOT contain the new user
message, contradicting the claim that the user message is always left
appended as an unpaired trailing turn. -/
theorem query_llm_error_loses_user_message :
    (query_llm "" (fun _ => none) false [hugeMessage] "hi").conversation = [] ∧
    (query_llm "" (fun _ => none) false [hugeMessage] "hi").reply =
      "I\x27m here to help. Please try again." := by
  have htrim : trimLoop ⟨"system", ""⟩ ([hugeMessage] ++ [⟨"user", "hi"⟩]) = [] := by
    show trimLoop ⟨"system", ""⟩ (hugeMessage :: ⟨"user", "hi"⟩ :: []) = []
    rw [trimLoop, if_pos]
    · rfl
    · unfold count_message_tokens
      rw [List.map_cons, List.map_cons, List.map_cons, List.map_nil,
        List.sum_cons, List.sum_cons, List.sum_cons, List.sum_nil, hugeMessage_tokens]
      decide
  have hchar : query_llm "" (fun _ => none) false [hugeMessage] "hi" =
      ⟨"I\x27m here to help. Please try again.", [], false⟩ := by
    simp only [query_llm]
    rw [htrim]
  rw [hchar]
  exact ⟨rfl, rfl⟩

/-! ## Recording-chunk numbering (`calls/ai_service.py`,
`TwilioVoiceService.handle_recording_complete`, with
`calls/models.py` `RecordingChunk.Meta.unique_together`)

A recording-complete webhook handler performs two database operations:
it reads `chunk_number = call.recording_chunks.count() + 1` and then
`create`s the chunk row. The `unique_together ('call', 'chunk_number')`
constraint rejects a duplicate number; the handler's `except Exception`
swallows the error, so the losing handler creates no chunk. Two
concurrent handlers are modelled as all interleavings of their two
atomic database operations. -/

/-- The atomic database operations of two concurrent recording-complete
handlers A and B. -/
inductive ChunkOp
  | readA
  | createA
  | readB
  | createB
deriving Repr, DecidableEq

/-- `recording_chunks.create(chunk_number=n)` under the unique constraint:
a duplicate number raises, the handler catches, and no row is added. -/
def dbCreate (chunks : List Nat) (n : Nat) : List Nat :=
  if n ∈ chunks then chunks else chunks ++ [n]

/-- Shared database state plus each handler's local `count()` read. -/
structure ConcState where
  chunks : List Nat
  aCount : Option Nat
  bCount : Option Nat
deriving Repr, DecidableEq

def execOp (s : ConcState) : ChunkOp → ConcState
  | .readA => { s with aCount := some s.chunks.length }
  | .createA =>
    match s.aCount with
    | some n => { s with chunks := dbCreate s.chunks (n + 1) }
    | none => s
  | .readB => { s with bCount := some s.chunks.length }
  | .createB =>
    match s.bCount with
    | some n => { s with chunks := dbCreate s.chunks (n + 1) }
    | none => s

def execOps (s : ConcState) (ops : List ChunkOp) : ConcState :=
  ops.foldl execOp s

/-- All interleavings of the two handlers' read-then-create sequences. -/
def twoHandlerSchedules : List (List ChunkOp) :=
  [[.readA, .createA, .readB, .createB],
   [.readA, .readB, .createA, .createB],
   [.readA, .readB, .createB, .createA],
   [.readB, .readA, .createA, .createB],
   [.readB, .readA, .createB, .createA],
   [.readB, .createB, .readA, .createA]]

/-- One complete, serialized handler execution:
`chunk_number = count + 1`, then create. -/
def handleSegment (chunks : List Nat) : List Nat :=
  dbCreate chunks (chunks.length + 1)

theorem handleSegment_range (n : Nat) :
    handleSegment (List.range' 1 n) = List.range' 1 (n + 1) := by
  unfold handleSegment dbCreate
  rw [List.length_range', if_neg, List.range'_1_concat, Nat.add_comm 1 n]
  rw [List.mem_range'_1]
  omega

theorem create_fresh (n : Nat) :
    dbCreate (List.range' 1 n) (n + 1) = List.range' 1 (n + 1) := by
  unfold dbCreate
  rw [if_neg, List.range'_1_concat, Nat.add_comm 1 n]
  rw [List.mem_range'_1]
  omega

theorem create_dup (n m : Nat) (h1 : 1 ≤ m) (h2 : m ≤ n) :
    dbCreate (List.range' 1 n) m = List.range' 1 n := by
  unfold dbCreate
  rw [if_pos]
  rw [List.mem_range'_1]
  omega

/-- C3: chunk numbers stay a gap-free sequence `1..N`. Sequentially, `k`
segment notifications starting from an empty call produce exactly
`1..k`; and for every interleaving of two concurrent recording-complete
notifications starting from `1..n`, the database constraint makes the
result again contiguous `1..m` for some `m ≥ n` (a duplicate insert is
rejected and that notification's chunk is dropped, never leaving a gap
or duplicate). -/
theorem chunk_numbers_contiguous (k n : Nat) (sched : List ChunkOp)
    (hs : sched ∈ twoHandlerSchedules) :
    handleSegment^[k] [] = List.range' 1 k ∧
    ∃ m, n ≤ m ∧ (execOps ⟨List.range' 1 n, none, none⟩ sched).chunks = List.range' 1 m := by
  constructor
  · induction k with
    | zero => rfl
    | succ k ih =>
      rw [Function.iterate_succ_apply', ih, handleSegment_range]
  · have hlen : (List.range' 1 n).length = n := List.length_range' 1 1 n
    fin_cases hs
    · refine ⟨n + 2, by omega, ?_⟩
      simp only [execOps, List.foldl_cons, List.foldl_nil, execOp, hlen, create_fresh]
      rw [show (List.range' 1 (n + 1)).length = n + 1 from List.length_range' 1 1 (n + 1),
        create_fresh]
    · refine ⟨n + 1, by omega, ?_⟩
      simp only [execOps, List.foldl_cons, List.foldl_nil, execOp, hlen, create_fresh]
      rw [create_dup (n + 1) (n + 1) (by omega) (by omega)]
    · refine ⟨n + 1, by omega, ?_⟩
      simp only [execOps, List.foldl_cons, List.foldl_nil, execOp, hlen, create_fresh]
      rw [create_dup (n + 1) (n + 1) (by omega) (by omega)]
    · refine ⟨n + 1, by omega, ?_⟩
      simp only [execOps, List.foldl_cons, List.foldl_nil, execOp, hlen, create_fresh]
      rw [create_dup (n + 1) (n + 1) (by omega) (by omega)]
    · refine ⟨n + 1, by omega, ?_⟩
      simp only [execOps, List.foldl_cons, List.foldl_nil, execOp, hlen, create_fresh]
      rw [create_dup (n + 1) (n + 1) (by omega) (by omega)]
    · refine ⟨n + 2, by omega, ?_⟩
      simp only [execOps, List.foldl_cons, List.foldl_nil, execOp, hlen, create_fresh]
      rw [show (List.range' 1 (n + 1)).length = n + 1 from List.length_range' 1 1 (n + 1),
        create_fresh]

theorem chunk_numbers_contiguous_witness :
    ([ChunkOp.readA, ChunkOp.readB, ChunkOp.createA, ChunkOp.createB] ∈
        twoHandlerSchedules) ∧
    (handleSegment^[3] [] = List.range' 1 3 ∧
      ∃ m, 2 ≤ m ∧
        (execOps ⟨List.range' 1 2, none, none⟩
          [ChunkOp.readA, ChunkOp.readB, ChunkOp.createA, ChunkOp.createB]).chunks =
          List.range' 1 m) :=
  ⟨by decide,
    chunk_numbers_contiguous 3 2
      [ChunkOp.readA, ChunkOp.readB, ChunkOp.createA, ChunkOp.createB] (by decide)⟩

/-! ## Segment pipeline (`calls/sarv.py` `process_single_audio_input` and
`calls/ai_service.py` `TwilioVoiceService`)

External effects are environment parameters: the Twilio recording URL and
download outcome, the transcription result, the chat completion, whether
`convert_to_audio_and_save` materialized the output file, whether
`_wait_for_file_creation` saw it within its timeout, whether the copy to
the media directory succeeded, and whether the pre-recorded
`sample_response.wav` fallback artifact exists. -/

def end_phrases : List String :=
  ["goodbye", "bye", "farewell", "take care",
   "we are here for you", "reach out anytime",
   "feel free to call", "thank you for calling",
   "stay safe", "wishing you well", "call us back",
   "i hope you feel better", "you\x27re going to be okay"]

def closure_indicators : List String :=
  ["thank you", "grateful", "helped me", "feel better", "much better"]

/-- `conversation_should_end`: explicit end marker, end phrases in the
last 100 characters, or closure language in a short reply. -/
def conversation_should_end (response : String) : Bool :=
  if response = "" then false
  else
    let response_lower := pyLower response
    if strOccursIn "<end conversation>" response_lower then true
    else
      let response_end :=
        if response_lower.length > 100 then
          String.mk (response_lower.data.drop (response_lower.length - 100))
        else response_lower
      let has_end_phrase := end_phrases.any (fun p => strOccursIn p response_end)
      let has_closure := closure_indicators.any (fun i => strOccursIn i response_lower)
      has_end_phrase || (has_closure && (pyStrip response).length < 200)

/-- The external-world outcomes one recording-complete webhook can see. -/
structure PipelineEnv where
  recording_url : Option String
  download_ok : Bool
  transcript : String
  sysContent : String
  llm : List Message → Option String
  memAvailable : Bool
  synthesisCreatesFile : Bool
  pollOk : Bool
  saveToMediaOk : Bool
  fallbackExists : Bool

/-- The result dictionary of `process_single_audio_input`, plus an
`llm_invoked` event flag recording whether `query_llm` was called. -/
structure ProcessOutcome where
  success : Bool
  transcription : String
  response_text : String
  conversation_history : List Message
  should_end : Bool
  is_short_audio : Bool
  llm_invoked : Bool

/-- `process_single_audio_input`: an empty (stripped) transcript is the
short/silent-segment outcome — `success=False`, `is_short_audio=True`,
no `query_llm` call; otherwise the turn runs and `success` is whether the
response audio file was created. -/
def process_single_audio_input (env : PipelineEnv)
    (conversation_history : List Message) : ProcessOutcome :=
  let transcribed_text := pyStrip env.transcript
  if transcribed_text = "" then
    ⟨false, "", "", conversation_history, false, true, false⟩
  else
    let r := query_llm env.sysContent env.llm env.memAvailable
      conversation_history transcribed_text
    ⟨env.synthesisCreatesFile, transcribed_text, r.reply, r.conversation,
      conversation_should_end r.reply, false, true⟩

/-- Outcome of `_process_with_sarvam_ai`: whether a response audio path
was produced (result success AND the polled file appeared in time). -/
structure SarvamOutcome where
  response_ready : Bool
  llm_invoked : Bool

def process_with_sarvam_ai (env : PipelineEnv)
    (conversation : List Message) : SarvamOutcome :=
  let result := process_single_audio_input env conversation
  if result.success then
    if env.pollOk then ⟨true, result.llm_invoked⟩
    else ⟨false, result.llm_invoked⟩
  else ⟨false, result.llm_invoked⟩

/-- URL of the pre-recorded fallback artifact
(`MEDIA_URL + "outputs/sample_response.wav"`). -/
def fallbackUrl : String := "/media/outputs/sample_response.wav"

/-- `_get_fallback_response`: the fallback audio URL when the artifact
exists, else `None`. -/
def get_fallback_response (env : PipelineEnv) : Option String :=
  if env.fallbackExists then some fallbackUrl else none

structure AIResponse where
  audio_url : Option String
  llm_invoked : Bool

/-- `wait_for_ai_response`: every failure exit (missing URL, download
failure, processing failure, poll timeout, media-copy failure) substitutes
`_get_fallback_response`. -/
def wait_for_ai_response (env : PipelineEnv)
    (conversation : List Message) : AIResponse :=
  match env.recording_url with
  | none => ⟨get_fallback_response env, false⟩
  | some _ =>
    if env.download_ok then
      let r := process_with_sarvam_ai env conversation
      if r.response_ready then
        if env.saveToMediaOk then
          ⟨some "/media/outputs/response.wav", r.llm_invoked⟩
        else ⟨get_fallback_response env, r.llm_invoked⟩
      else ⟨get_fallback_response env, r.llm_invoked⟩
    else ⟨get_fallback_response env, false⟩

/-- A `RecordingChunk` row in the fields this flow touches.
`risk_processed`/`risk_level` belong to the risk-assessment module; the
recording-complete flow never invokes that module (the repository contains
no caller of `process_chunk_risk_assessment`), so they stay at their
defaults. -/
structure ChunkState where
  chunk_number : Nat
  processed : Bool
  response_audio_url : Option String
  response_played : Bool
  risk_processed : Bool
  risk_level : Option String
deriving Repr, DecidableEq

def newChunk (n : Nat) : ChunkState := ⟨n, false, none, false, false, none⟩

/-- What one `handle_recording_complete` webhook produced: the chunk row
(created only when a recording URL was delivered), the audio played to the
caller, whether the returned TwiML resumes recording, and event flags for
the dialogue-completion call and RiskAssessment creation. -/
structure SegmentOutcome where
  chunk : Option ChunkState
  played_audio : Option String
  resumes_recording : Bool
  llm_invoked : Bool
  risk_assessment_created : Bool

/-- The chunk mutations performed on the played-response path:
`processed = True`, `response_audio_url`, `processed_at`, then
`response_played = True` after queueing the play verb. -/
def markPlayed (c : ChunkState) (url : String) : ChunkState :=
  { c with processed := true, response_audio_url := some url, response_played := true }

/-- `handle_recording_complete`: create the chunk numbered `count + 1`,
run `wait_for_ai_response`; when it yields an audio URL, mark the chunk
processed, play the audio, and mark the response played; in every branch
(success, no audio, missing call, exception) the returned TwiML ends with
`response.record(...)`. No branch creates a RiskAssessment. -/
def handle_recording_complete (env : PipelineEnv) (conversation : List Message)
    (existing_chunk_count : Nat) : SegmentOutcome :=
  let chunk0 : Option ChunkState :=
    match env.recording_url with
    | some _ => some (newChunk (existing_chunk_count + 1))
    | none => none
  let ai := wait_for_ai_response env conversation
  match ai.audio_url, chunk0 with
  | some url, some c => ⟨some (markPlayed c url), some url, true, ai.llm_invoked, false⟩
  | some url, none => ⟨none, some url, true, ai.llm_invoked, false⟩
  | none, c => ⟨c, none, true, ai.llm_invoked, false⟩

/-! ### Lemmas on the segment pipeline -/

theorem wait_empty_transcript (env : PipelineEnv) (conv : List Message)
    (hts : pyStrip env.transcript = "") :
    wait_for_ai_response env conv = ⟨get_fallback_response env, false⟩ := by
  unfold wait_for_ai_response process_with_sarvam_ai process_single_audio_input
  cases hu : env.recording_url with
  | none => rfl
  | some u =>
    by_cases hd : env.download_ok
    · simp [hd, hts]
    · simp [hd]

theorem wait_failed_synthesis (env : PipelineEnv) (conv : List Message)
    (hfail : env.pollOk = false ∨ env.synthesisCreatesFile = false) :
    (wait_for_ai_response env conv).audio_url = get_fallback_response env := by
  unfold wait_for_ai_response process_with_sarvam_ai process_single_audio_input
  cases hu : env.recording_url with
  | none => rfl
  | some u =>
    by_cases hd : env.download_ok
    · by_cases hts : pyStrip env.transcript = ""
      · simp [hd, hts]
      · rcases hfail with hp | hsynth
        · simp [hd, hts, hp]
        · simp [hd, hts, hsynth]
    · simp [hd]

theorem handle_recording_complete_play (env : PipelineEnv)
    (conversation : List Message) (existing_chunk_count : Nat) (url : String)
    (hurl : env.recording_url.isSome = true)
    (hw : (wait_for_ai_response env conversation).audio_url = some url) :
    handle_recording_complete env conversation existing_chunk_count =
      ⟨some (markPlayed (newChunk (existing_chunk_count + 1)) url), some url, true,
        (wait_for_ai_response env conversation).llm_invoked, false⟩ := by
  obtain ⟨u, hu⟩ := Option.isSome_iff_exists.mp hurl
  simp only [handle_recording_complete, hu, hw]

/-- C5: a segment whose transcription result is empty skips classification
and reply generation — `query_llm` is never invoked and no RiskAssessment
is created — while the chunk row is still created, marked processed (via
the fallback-audio path, risk assessment untouched), and the returned
instruction still resumes recording. -/
theorem empty_transcript_skips_reply (env : PipelineEnv)
    (conversation : List Message) (existing_chunk_count : Nat)
    (hurl : env.recording_url.isSome = true)
    (hts : pyStrip env.transcript = "")
    (hfb : env.fallbackExists = true) :
    (handle_recording_complete env conversation existing_chunk_count).llm_invoked = false ∧
    (handle_recording_complete env conversation existing_chunk_count).risk_assessment_created = false ∧
    (∃ c, (handle_recording_complete env conversation existing_chunk_count).chunk = some c ∧
      c.processed = true ∧ c.risk_processed = false ∧ c.risk_level = none) ∧
    (handle_recording_complete env conversation existing_chunk_count).played_audio =
      some fallbackUrl ∧
    (handle_recording_complete env conversation existing_chunk_count).resumes_recording = true := by
  have hf : get_fallback_response env = some fallbackUrl := by
    simp [get_fallback_response, hfb]
  have hwe := wait_empty_transcript env conversation hts
  have hw : (wait_for_ai_response env conversation).audio_url = some fallbackUrl := by
    rw [hwe]; exact hf
  have hinv : (wait_for_ai_response env conversation).llm_invoked = false := by
    rw [hwe]
  rw [handle_recording_complete_play env conversation existing_chunk_count fallbackUrl hurl hw]
  exact ⟨hinv, rfl,
    ⟨markPlayed (newChunk (existing_chunk_count + 1)) fallbackUrl, rfl, rfl, rfl, rfl⟩,
    rfl, rfl⟩

/-- Concrete environment for the C5 witness: recording delivered and
downloadable, transcription came back empty, fallback artifact present. -/
def envShortSegment : PipelineEnv :=
  ⟨some "https://api.twilio.example/rec/1", true, "", "", fun _ => none, false,
    true, true, true, true⟩

theorem empty_transcript_skips_reply_witness :
    (envShortSegment.recording_url.isSome = true) ∧
    (pyStrip envShortSegment.transcript = "") ∧
    (envShortSegment.fallbackExists = true) ∧
    ((handle_recording_complete envShortSegment [] 0).llm_invoked = false ∧
      (handle_recording_complete envShortSegment [] 0).risk_assessment_created = false ∧
      (∃ c, (handle_recording_complete envShortSegment [] 0).chunk = some c ∧
        c.processed = true ∧ c.risk_processed = false ∧ c.risk_level = none) ∧
      (handle_recording_complete envShortSegment [] 0).played_audio = some fallbackUrl ∧
      (handle_recording_complete envShortSegment [] 0).resumes_recording = true) :=
  ⟨rfl, by decide, rfl,
    empty_transcript_skips_reply envShortSegment [] 0 rfl (by decide) rfl⟩

/-- C6: whenever the synthesized audio fails to materialize — the
existence poll times out or synthesis never created the file — the audio
reference played to the caller resolves to the pre-recorded fallback
artifact, the chunk ends with `response_played = true`, and the returned
instruction still resumes recording. -/
theorem synthesis_failure_plays_fallback (env : PipelineEnv)
    (conversation : List Message) (existing_chunk_count : Nat)
    (hurl : env.recording_url.isSome = true)
    (hfail : env.pollOk = false ∨ env.synthesisCreatesFile = false)
    (hfb : env.fallbackExists = true) :
    (handle_recording_complete env conversation existing_chunk_count).played_audio =
      some fallbackUrl ∧
    (∃ c, (handle_recording_complete env conversation existing_chunk_count).chunk = some c ∧
      c.response_played = true ∧ c.processed = true ∧
      c.response_audio_url = some fallbackUrl) ∧
    (handle_recording_complete env conversation existing_chunk_count).resumes_recording = true := by
  have hf : get_fallback_response env = some fallbackUrl := by
    simp [get_fallback_response, hfb]
  have hw : (wait_for_ai_response env conversation).audio_url = some fallbackUrl := by
    rw [wait_failed_synthesis env conversation hfail]; exact hf
  rw [handle_recording_complete_play env conversation existing_chunk_count fallbackUrl hurl hw]
  exact ⟨rfl,
    ⟨markPlayed (newChunk (existing_chunk_count + 1)) fallbackUrl, rfl, rfl, rfl, rfl⟩,
    rfl⟩

/-- Concrete environment for the C6 witness: a normal turn whose
text-to-speech output never appears within the polling timeout. -/
def envSynthesisTimeout : PipelineEnv :=
  ⟨some "https://api.twilio.example/rec/2", true, "hello there", "",
    fun _ => some "I hear you.", false, true, false, true, true⟩

theorem synthesis_failure_plays_fallback_witness :
    (envSynthesisTimeout.recording_url.isSome = true) ∧
    (envSynthesisTimeout.pollOk = false ∨
      envSynthesisTimeout.synthesisCreatesFile = false) ∧
    (envSynthesisTimeout.fallbackExists = true) ∧
    ((handle_recording_complete envSynthesisTimeout [] 0).played_audio =
        some fallbackUrl ∧
      (∃ c, (handle_recording_complete envSynthesisTimeout [] 0).chunk = some c ∧
        c.response_played = true ∧ c.processed = true ∧
        c.response_audio_url = some fallbackUrl) ∧
      (handle_recording_complete envSynthesisTimeout [] 0).resumes_recording = true) :=
  ⟨rfl, Or.inl rfl, rfl,
    synthesis_failure_plays_fallback envSynthesisTimeout [] 0 rfl (Or.inl rfl) rfl⟩

/-! ## Fallback classifier and totality of `assess_risk` -/

/-- Specification-side restatement for C7: the most severe of the four
keyword tiers whose keyword set matches the lowercased text, `no_risk`
when none matches. Compared below with the source fallback classifier. -/
def mostSevereMatchingTier (text : String) : String :=
  if alert_keywords.any (fun k => strOccursIn k (pyLower text)) then "alert"
  else if high_risk_keywords.any (fun k => strOccursIn k (pyLower text)) then "high_risk"
  else if medium_risk_keywords.any (fun k => strOccursIn k (pyLower text)) then "medium_risk"
  else if low_risk_keywords.any (fun k => strOccursIn k (pyLower text)) then "low_risk"
  else "no_risk"

/-- C7: with the model unavailable, `assess_risk` returns exactly the
deterministic keyword fallback; on non-empty text the fallback's level is
the most severe matching tier; and for the scenario transcript
"I lost my job and feel hopeless" (which only matches the low tier's
"hopeless") the level is `low_risk` — at or below `medium_risk` — and
feeding that assessment to the escalator on a fresh call creates no
escalation attempt. -/
theorem model_unavailable_uses_fallback (translate : String → String)
    (text : String) (htext : pyStrip text ≠ "") :
    assess_risk none translate text = fallback_risk_assessment text ∧
    (fallback_risk_assessment text).risk_level = mostSevereMatchingTier text ∧
    (fallback_risk_assessment "I lost my job and feel hopeless").risk_level = "low_risk" ∧
    get_risk_priority
        (fallback_risk_assessment "I lost my job and feel hopeless").risk_level ≤
      get_risk_priority "medium_risk" ∧
    (classifyChunk initialCall
        (fallback_risk_assessment "I lost my job and feel hopeless").risk_level
        (fallback_risk_assessment "I lost my job and feel hopeless").risk_category
      ).emergency_contacts = [] := by
  refine ⟨rfl, ?_, by decide, by decide, by decide⟩
  unfold fallback_risk_assessment mostSevereMatchingTier
  rw [if_neg htext]
  split_ifs <;> rfl

theorem model_unavailable_uses_fallback_witness :
    (pyStrip "I lost my job and feel hopeless" ≠ "") ∧
    (assess_risk none (fun t => t) "I lost my job and feel hopeless" =
        fallback_risk_assessment "I lost my job and feel hopeless" ∧
      (fallback_risk_assessment "I lost my job and feel hopeless").risk_level =
        mostSevereMatchingTier "I lost my job and feel hopeless" ∧
      (fallback_risk_assessment "I lost my job and feel hopeless").risk_level = "low_risk" ∧
      get_risk_priority
          (fallback_risk_assessment "I lost my job and feel hopeless").risk_level ≤
        get_risk_priority "medium_risk" ∧
      (classifyChunk initialCall
          (fallback_risk_assessment "I lost my job and feel hopeless").risk_level
          (fallback_risk_assessment "I lost my job and feel hopeless").risk_category
        ).emergency_contacts = []) :=
  ⟨by decide,
    model_unavailable_uses_fallback (fun t => t) "I lost my job and feel hopeless"
      (by decide)⟩

/-- The closed risk-level vocabulary. -/
def risk_levels : List String :=
  ["no_risk", "low_risk", "medium_risk", "high_risk", "alert"]

/-- The eight fixed classifier categories. -/
def risk_categories : List String :=
  ["Presence of a loved one", "Previous attempt", "Ability to take care of oneself",
   "Ability to hope for change", "Other", "Suicidal planning",
   "Ability to control oneself", "Consumption"]

theorem fallback_mem (text : String) :
    (fallback_risk_assessment text).risk_level ∈ risk_levels ∧
    (fallback_risk_assessment text).risk_category ∈ risk_categories := by
  unfold fallback_risk_assessment
  split_ifs <;> exact ⟨by decide, by decide⟩

theorem risk_measure_mem (c v : String) (h : risk_measure c = some v) :
    v ∈ risk_levels := by
  unfold risk_measure at h
  split_ifs at h <;>
    first
      | exact Option.noConfusion h
      | (cases h; decide)

/-- C9: `assess_risk` is total by construction (every failure of the
model, the translator, or the fallback is routed to a defined result),
and — assuming the external classifier honours its closed category
vocabulary — the result's `risk_level` always lies in the five-level
vocabulary and its `risk_category` in the eight fixed categories, for
every input text including empty and whitespace-only ones. -/
theorem assess_risk_total (model : Option (String → Option String))
    (translate : String → String) (text : String)
    (hmodel : ∀ f, model = some f → ∀ s r, f s = some r → r ∈ risk_categories) :
    (assess_risk model translate text).risk_level ∈ risk_levels ∧
    (assess_risk model translate text).risk_category ∈ risk_categories := by
  cases model with
  | none => exact fallback_mem text
  | some predict =>
    by_cases ht : pyStrip text = ""
    · simp only [assess_risk]
      rw [if_pos ht]
      exact ⟨by decide, by decide⟩
    · simp only [assess_risk]
      rw [if_neg ht]
      cases hp : predict (translate text) with
      | none => exact fallback_mem text
      | some prediction =>
        constructor
        · show (risk_measure prediction).getD "no_risk" ∈ risk_levels
          cases hm : risk_measure prediction with
          | none => decide
          | some v => simpa using risk_measure_mem prediction v hm
        · show prediction ∈ risk_categories
          exact hmodel predict rfl (translate text) prediction hp

theorem assess_risk_total_witness :
    (∀ f, (none : Option (String → Option String)) = some f →
      ∀ s r, f s = some r → r ∈ risk_categories) ∧
    ((assess_risk none (fun t => t) "   ").risk_level ∈ risk_levels ∧
      (assess_risk none (fun t => t) "   ").risk_category ∈ risk_categories) :=
  ⟨fun _ h => Option.noConfusion h,
    assess_risk_total none (fun t => t) "   " (fun _ h => Option.noConfusion h)⟩

end IntelliCare
